import Mathlib

/-!
Shallow embedding of the LIS3DHH accelerometer register driver
(`lis3dhh_reg.c`) and verification of its specification claims.

Modelling conventions:
* `uint8_t` buffers are `List Nat`; every byte extraction applies `% 256`,
  mirroring the fact that a C `uint8_t` object can only hold values below 256.
* `int32_t` status codes are `Int` (they are only passed through unchanged,
  so no overflow arises).
* `int16_t` arithmetic is `Int` with an explicit wrap to the two's-complement
  16-bit range (`toInt16`); C signed division is `Int.tdiv` (truncation
  toward zero).
* The injected transport (`stmdev_ctx_t`) is a pair of pure functions; a
  possibly-NULL context pointer is `Option stmdev_ctx_t`.  Each driver
  function additionally returns the list of bus transactions it issued, so
  that "no write was issued" is directly observable.
* Register bitfield structs are modelled as a raw byte plus pure mask/shift
  field accessors (`getField` / `setField`), mirroring the C bitfield
  overlay; a C bitfield assignment truncates the stored value to the field
  width, which `setField` reproduces via `% 2 ^ width`.
* `float_t` is modelled as exact rational arithmetic on the literal
  constants of the source.
-/

/-- Modelled from the spec: the transport interface of `stmdev_ctx_t`
(the header `lis3dhh_reg.h` is not part of the sources).  `read_reg` takes
the register address, the current contents of the caller's buffer and the
length, and returns a status plus the new buffer contents; `write_reg`
takes the register address, the data and the length and returns a status. -/
structure stmdev_ctx_t where
  read_reg : Nat → List Nat → Nat → Int × List Nat
  write_reg : Nat → List Nat → Nat → Int

/-- One bus transaction issued by the driver through the transport. -/
inductive Transaction where
  | read (reg : Nat) (len : Nat) : Transaction
  | write (reg : Nat) (data : List Nat) (len : Nat) : Transaction
deriving DecidableEq

/-- Returns true exactly on write transactions. -/
def Transaction.isWrite : Transaction → Bool
  | .read _ _ => false
  | .write _ _ _ => true

/-- A transaction trace containing no write transaction. -/
def writeFree (tr : List Transaction) : Prop :=
  ∀ t ∈ tr, t.isWrite = false

instance (tr : List Transaction) : Decidable (writeFree tr) := by
  unfold writeFree; infer_instance

/-- Modelled from the spec: register address of CTRL_REG1 (datasheet map). -/
def LIS3DHH_CTRL_REG1 : Nat := 0x20

/-- Modelled from the spec: register address of CTRL_REG4 (datasheet map). -/
def LIS3DHH_CTRL_REG4 : Nat := 0x23

/-- Modelled from the spec: register address of OUT_TEMP_L (datasheet map). -/
def LIS3DHH_OUT_TEMP_L : Nat := 0x25

/-- Modelled from the spec: register address of OUT_X_L_XL (datasheet map). -/
def LIS3DHH_OUT_X_L_XL : Nat := 0x28

/-- Modelled from the spec: register address of FIFO_CTRL (datasheet map). -/
def LIS3DHH_FIFO_CTRL : Nat := 0x2E

/-- Byte `i` of a C `uint8_t` buffer: a `uint8_t` object is always < 256. -/
def byteAt (l : List Nat) (i : Nat) : Nat := l.getD i 0 % 256

/-- Extract the bitfield of `width` bits starting at bit `lo` of byte `b`. -/
def getField (b lo width : Nat) : Nat := b / 2 ^ lo % 2 ^ width

/-- Store `v` into the bitfield of `width` bits at bit `lo` of byte `b`,
leaving all other bits unchanged (C bitfield assignment semantics: the
stored value is truncated to the field width). -/
def setField (b lo width v : Nat) : Nat :=
  b % 2 ^ lo + v % 2 ^ width * 2 ^ lo + b / 2 ^ (lo + width) * 2 ^ (lo + width)

/-!
Modelled from the spec: the bitfield layout of `lis3dhh_ctrl_reg1_t`
(datasheet CTRL_REG1, LSB first): bdu:1, drdy_pulse:1, sw_reset:1, boot:1,
reserved:2, if_add_inc:1, norm_mod_en:1.
-/

/-- Field bdu of CTRL_REG1 (bit 0). -/
def ctrl_reg1_bdu (b : Nat) : Nat := getField b 0 1

/-- Field drdy_pulse of CTRL_REG1 (bit 1). -/
def ctrl_reg1_drdy_pulse (b : Nat) : Nat := getField b 1 1

/-- Field sw_reset of CTRL_REG1 (bit 2). -/
def ctrl_reg1_sw_reset (b : Nat) : Nat := getField b 2 1

/-- Field boot of CTRL_REG1 (bit 3). -/
def ctrl_reg1_boot (b : Nat) : Nat := getField b 3 1

/-- Reserved bits 4-5 of CTRL_REG1. -/
def ctrl_reg1_not_used_01 (b : Nat) : Nat := getField b 4 2

/-- Field if_add_inc of CTRL_REG1 (bit 6). -/
def ctrl_reg1_if_add_inc (b : Nat) : Nat := getField b 6 1

/-- Field norm_mod_en of CTRL_REG1 (bit 7). -/
def ctrl_reg1_norm_mod_en (b : Nat) : Nat := getField b 7 1

/-- Assignment to field bdu of CTRL_REG1. -/
def ctrl_reg1_set_bdu (b v : Nat) : Nat := setField b 0 1 v

/-- Assignment to field boot of CTRL_REG1. -/
def ctrl_reg1_set_boot (b v : Nat) : Nat := setField b 3 1 v

/-- Assignment to field norm_mod_en of CTRL_REG1. -/
def ctrl_reg1_set_norm_mod_en (b v : Nat) : Nat := setField b 7 1 v

/-!
Modelled from the spec: the bitfield layout of `lis3dhh_ctrl_reg4_t`
(datasheet CTRL_REG4, LSB first): one:1, pp_od_int1:1, pp_od_int2:1,
fifo_en:1, st:2, dsp:2.
-/

/-- Field st (self test) of CTRL_REG4 (bits 4-5). -/
def ctrl_reg4_st (b : Nat) : Nat := getField b 4 2

/-- Assignment to field st of CTRL_REG4. -/
def ctrl_reg4_set_st (b v : Nat) : Nat := setField b 4 2 v

/-!
Modelled from the spec: the bitfield layout of `lis3dhh_fifo_ctrl_t`
(datasheet FIFO_CTRL, LSB first): fth:5, fmode:3.
-/

/-- Field fth (watermark) of FIFO_CTRL (bits 0-4). -/
def fifo_ctrl_fth (b : Nat) : Nat := getField b 0 5

/-- Field fmode of FIFO_CTRL (bits 5-7). -/
def fifo_ctrl_fmode (b : Nat) : Nat := getField b 5 3

/-- Assignment to field fth of FIFO_CTRL. -/
def fifo_ctrl_set_fth (b v : Nat) : Nat := setField b 0 5 v

/-- Assignment to field fmode of FIFO_CTRL. -/
def fifo_ctrl_set_fmode (b v : Nat) : Nat := setField b 5 3 v

/-- Modelled from the spec: the enumerators of `lis3dhh_norm_mod_en_t`
(output data rate: power-down or 1.1 kHz). -/
inductive lis3dhh_norm_mod_en_t where
  | LIS3DHH_POWER_DOWN
  | LIS3DHH_1kHz1
deriving DecidableEq

/-- Modelled from the spec: the numeric codes of `lis3dhh_norm_mod_en_t`. -/
def lis3dhh_norm_mod_en_t.code : lis3dhh_norm_mod_en_t → Nat
  | .LIS3DHH_POWER_DOWN => 0
  | .LIS3DHH_1kHz1 => 1

/-- Modelled from the spec: the enumerators of `lis3dhh_st_t` (self test
disabled / positive / negative). -/
inductive lis3dhh_st_t where
  | LIS3DHH_ST_DISABLE
  | LIS3DHH_ST_POSITIVE
  | LIS3DHH_ST_NEGATIVE
deriving DecidableEq

/-- Modelled from the spec: the numeric codes of `lis3dhh_st_t`. -/
def lis3dhh_st_t.code : lis3dhh_st_t → Nat
  | .LIS3DHH_ST_DISABLE => 0
  | .LIS3DHH_ST_POSITIVE => 1
  | .LIS3DHH_ST_NEGATIVE => 2

/-- Modelled from the spec: the enumerators of `lis3dhh_fmode_t` (FIFO
mode: bypass, FIFO, stream-to-FIFO, bypass-to-stream, dynamic stream). -/
inductive lis3dhh_fmode_t where
  | LIS3DHH_BYPASS_MODE
  | LIS3DHH_FIFO_MODE
  | LIS3DHH_STREAM_TO_FIFO_MODE
  | LIS3DHH_BYPASS_TO_STREAM_MODE
  | LIS3DHH_DYNAMIC_STREAM_MODE
deriving DecidableEq

/-- Modelled from the spec: the numeric codes of `lis3dhh_fmode_t`
(datasheet FMODE values; 2, 5 and 7 are undefined patterns). -/
def lis3dhh_fmode_t.code : lis3dhh_fmode_t → Nat
  | .LIS3DHH_BYPASS_MODE => 0
  | .LIS3DHH_FIFO_MODE => 1
  | .LIS3DHH_STREAM_TO_FIFO_MODE => 3
  | .LIS3DHH_BYPASS_TO_STREAM_MODE => 4
  | .LIS3DHH_DYNAMIC_STREAM_MODE => 6

/-- Embedding of `lis3dhh_read_reg`: NULL context returns -1 and touches
nothing; otherwise the injected callback runs and its status is returned
unchanged.  The third component is the transaction trace. -/
def lis3dhh_read_reg (ctx : Option stmdev_ctx_t) (reg : Nat) (data : List Nat)
    (len : Nat) : Int × List Nat × List Transaction :=
  match ctx with
  | none => (-1, data, [])
  | some c =>
    let r := c.read_reg reg data len
    (r.1, r.2, [Transaction.read reg len])

/-- Embedding of `lis3dhh_write_reg`: NULL context returns -1 without
invoking the callback; otherwise the injected callback runs and its status
is returned unchanged. -/
def lis3dhh_write_reg (ctx : Option stmdev_ctx_t) (reg : Nat) (data : List Nat)
    (len : Nat) : Int × List Transaction :=
  match ctx with
  | none => (-1, [])
  | some c => (c.write_reg reg data len, [Transaction.write reg data len])

/-- Wrap a value to the two's-complement `int16_t` range, as C does when a
wider value is stored into an `int16_t` object. -/
def toInt16 (n : Nat) : Int :=
  if n % 65536 < 32768 then (n % 65536 : Int) else (n % 65536 : Int) - 65536

/-- Embedding of `lis3dhh_from_lsb_to_mg` (float modelled as exact
rationals): `lsb * 0.076`. -/
def lis3dhh_from_lsb_to_mg (lsb : Int) : ℚ := (lsb : ℚ) * (76 / 1000)

/-- Embedding of `lis3dhh_from_lsb_to_celsius` (float modelled as exact
rationals): `lsb / 16 + 25`. -/
def lis3dhh_from_lsb_to_celsius (lsb : Int) : ℚ := (lsb : ℚ) / 16 + 25

/-- Embedding of `lis3dhh_block_data_update_set`.  `g` is the content of
the uninitialised stack byte passed to the transport as the read buffer. -/
def lis3dhh_block_data_update_set (ctx : Option stmdev_ctx_t) (val : Nat)
    (g : Nat) : Int × List Transaction :=
  let r := lis3dhh_read_reg ctx LIS3DHH_CTRL_REG1 [g] 1
  if r.1 = 0 then
    let w := lis3dhh_write_reg ctx LIS3DHH_CTRL_REG1
      [ctrl_reg1_set_bdu (byteAt r.2.1 0) val] 1
    (w.1, r.2.2 ++ w.2)
  else
    (r.1, r.2.2)

/-- Embedding of `lis3dhh_block_data_update_get`.  The second component is
the value stored through the output pointer. -/
def lis3dhh_block_data_update_get (ctx : Option stmdev_ctx_t) (g : Nat) :
    Int × Nat × List Transaction :=
  let r := lis3dhh_read_reg ctx LIS3DHH_CTRL_REG1 [g] 1
  (r.1, ctrl_reg1_bdu (byteAt r.2.1 0), r.2.2)

/-- Embedding of `lis3dhh_data_rate_set`: read CTRL_REG1, and only on
status 0 store the enum code into norm_mod_en and write the byte back. -/
def lis3dhh_data_rate_set (ctx : Option stmdev_ctx_t)
    (val : lis3dhh_norm_mod_en_t) (g : Nat) : Int × List Transaction :=
  let r := lis3dhh_read_reg ctx LIS3DHH_CTRL_REG1 [g] 1
  if r.1 = 0 then
    let w := lis3dhh_write_reg ctx LIS3DHH_CTRL_REG1
      [ctrl_reg1_set_norm_mod_en (byteAt r.2.1 0) val.code] 1
    (w.1, r.2.2 ++ w.2)
  else
    (r.1, r.2.2)

/-- The switch statement of `lis3dhh_data_rate_get`: any pattern other than
the two enumerators falls to the default, LIS3DHH_POWER_DOWN. -/
def decode_norm_mod_en (n : Nat) : lis3dhh_norm_mod_en_t :=
  if n = lis3dhh_norm_mod_en_t.LIS3DHH_POWER_DOWN.code then
    .LIS3DHH_POWER_DOWN
  else if n = lis3dhh_norm_mod_en_t.LIS3DHH_1kHz1.code then
    .LIS3DHH_1kHz1
  else
    .LIS3DHH_POWER_DOWN

/-- Embedding of `lis3dhh_data_rate_get`: the output value is decoded and
stored unconditionally, and the read status is returned unchanged. -/
def lis3dhh_data_rate_get (ctx : Option stmdev_ctx_t) (g : Nat) :
    Int × lis3dhh_norm_mod_en_t × List Transaction :=
  let r := lis3dhh_read_reg ctx LIS3DHH_CTRL_REG1 [g] 1
  (r.1, decode_norm_mod_en (ctrl_reg1_norm_mod_en (byteAt r.2.1 0)), r.2.2)

/-- Embedding of `lis3dhh_boot_set`: read CTRL_REG1, and only on status 0
store `val` into the boot bit and write the byte back. -/
def lis3dhh_boot_set (ctx : Option stmdev_ctx_t) (val : Nat) (g : Nat) :
    Int × List Transaction :=
  let r := lis3dhh_read_reg ctx LIS3DHH_CTRL_REG1 [g] 1
  if r.1 = 0 then
    let w := lis3dhh_write_reg ctx LIS3DHH_CTRL_REG1
      [ctrl_reg1_set_boot (byteAt r.2.1 0) val] 1
    (w.1, r.2.2 ++ w.2)
  else
    (r.1, r.2.2)

/-- Embedding of `lis3dhh_self_test_set`: read CTRL_REG4, and only on
status 0 store the enum code into st and write the byte back. -/
def lis3dhh_self_test_set (ctx : Option stmdev_ctx_t) (val : lis3dhh_st_t)
    (g : Nat) : Int × List Transaction :=
  let r := lis3dhh_read_reg ctx LIS3DHH_CTRL_REG4 [g] 1
  if r.1 = 0 then
    let w := lis3dhh_write_reg ctx LIS3DHH_CTRL_REG4
      [ctrl_reg4_set_st (byteAt r.2.1 0) val.code] 1
    (w.1, r.2.2 ++ w.2)
  else
    (r.1, r.2.2)

/-- The switch statement of `lis3dhh_self_test_get`: any pattern other than
the three enumerators falls to the default, LIS3DHH_ST_DISABLE. -/
def decode_st (n : Nat) : lis3dhh_st_t :=
  if n = lis3dhh_st_t.LIS3DHH_ST_DISABLE.code then .LIS3DHH_ST_DISABLE
  else if n = lis3dhh_st_t.LIS3DHH_ST_POSITIVE.code then .LIS3DHH_ST_POSITIVE
  else if n = lis3dhh_st_t.LIS3DHH_ST_NEGATIVE.code then .LIS3DHH_ST_NEGATIVE
  else .LIS3DHH_ST_DISABLE

/-- Embedding of `lis3dhh_self_test_get`: the output value is decoded and
stored unconditionally, and the read status is returned unchanged. -/
def lis3dhh_self_test_get (ctx : Option stmdev_ctx_t) (g : Nat) :
    Int × lis3dhh_st_t × List Transaction :=
  let r := lis3dhh_read_reg ctx LIS3DHH_CTRL_REG4 [g] 1
  (r.1, decode_st (ctrl_reg4_st (byteAt r.2.1 0)), r.2.2)

/-- Embedding of `lis3dhh_fifo_watermark_set`: read FIFO_CTRL, and only on
status 0 store `val` into the 5-bit fth field and write the byte back. -/
def lis3dhh_fifo_watermark_set (ctx : Option stmdev_ctx_t) (val : Nat)
    (g : Nat) : Int × List Transaction :=
  let r := lis3dhh_read_reg ctx LIS3DHH_FIFO_CTRL [g] 1
  if r.1 = 0 then
    let w := lis3dhh_write_reg ctx LIS3DHH_FIFO_CTRL
      [fifo_ctrl_set_fth (byteAt r.2.1 0) val] 1
    (w.1, r.2.2 ++ w.2)
  else
    (r.1, r.2.2)

/-- Embedding of `lis3dhh_fifo_watermark_get`. -/
def lis3dhh_fifo_watermark_get (ctx : Option stmdev_ctx_t) (g : Nat) :
    Int × Nat × List Transaction :=
  let r := lis3dhh_read_reg ctx LIS3DHH_FIFO_CTRL [g] 1
  (r.1, fifo_ctrl_fth (byteAt r.2.1 0), r.2.2)

/-- Embedding of `lis3dhh_fifo_mode_set`: read FIFO_CTRL, and only on
status 0 store the enum code into fmode and write the byte back. -/
def lis3dhh_fifo_mode_set (ctx : Option stmdev_ctx_t) (val : lis3dhh_fmode_t)
    (g : Nat) : Int × List Transaction :=
  let r := lis3dhh_read_reg ctx LIS3DHH_FIFO_CTRL [g] 1
  if r.1 = 0 then
    let w := lis3dhh_write_reg ctx LIS3DHH_FIFO_CTRL
      [fifo_ctrl_set_fmode (byteAt r.2.1 0) val.code] 1
    (w.1, r.2.2 ++ w.2)
  else
    (r.1, r.2.2)

/-- The switch statement of `lis3dhh_fifo_mode_get`: any pattern other than
the five enumerators falls to the default, LIS3DHH_BYPASS_MODE. -/
def decode_fmode (n : Nat) : lis3dhh_fmode_t :=
  if n = lis3dhh_fmode_t.LIS3DHH_BYPASS_MODE.code then
    .LIS3DHH_BYPASS_MODE
  else if n = lis3dhh_fmode_t.LIS3DHH_FIFO_MODE.code then
    .LIS3DHH_FIFO_MODE
  else if n = lis3dhh_fmode_t.LIS3DHH_STREAM_TO_FIFO_MODE.code then
    .LIS3DHH_STREAM_TO_FIFO_MODE
  else if n = lis3dhh_fmode_t.LIS3DHH_BYPASS_TO_STREAM_MODE.code then
    .LIS3DHH_BYPASS_TO_STREAM_MODE
  else if n = lis3dhh_fmode_t.LIS3DHH_DYNAMIC_STREAM_MODE.code then
    .LIS3DHH_DYNAMIC_STREAM_MODE
  else
    .LIS3DHH_BYPASS_MODE

/-- Embedding of `lis3dhh_fifo_mode_get`: the output value is decoded and
stored unconditionally, and the read status is returned unchanged. -/
def lis3dhh_fifo_mode_get (ctx : Option stmdev_ctx_t) (g : Nat) :
    Int × lis3dhh_fmode_t × List Transaction :=
  let r := lis3dhh_read_reg ctx LIS3DHH_FIFO_CTRL [g] 1
  (r.1, decode_fmode (fifo_ctrl_fmode (byteAt r.2.1 0)), r.2.2)

/-- Embedding of `lis3dhh_temperature_raw_get`: read two bytes starting at
OUT_TEMP_L, assemble them little-endian into an `int16_t` and divide by 16
(C signed division truncates toward zero).  `g` is the content of the
uninitialised two-byte stack buffer. -/
def lis3dhh_temperature_raw_get (ctx : Option stmdev_ctx_t) (g : List Nat) :
    Int × Int × List Transaction :=
  let r := lis3dhh_read_reg ctx LIS3DHH_OUT_TEMP_L g 2
  let buff := r.2.1
  (r.1, (toInt16 (byteAt buff 1 * 256 + byteAt buff 0)).tdiv 16, r.2.2)

/-- Embedding of `lis3dhh_acceleration_raw_get`: read six bytes starting at
OUT_X_L_XL and assemble three little-endian `int16_t` words X, Y, Z. -/
def lis3dhh_acceleration_raw_get (ctx : Option stmdev_ctx_t) (g : List Nat) :
    Int × (Int × Int × Int) × List Transaction :=
  let r := lis3dhh_read_reg ctx LIS3DHH_OUT_X_L_XL g 6
  let buff := r.2.1
  (r.1,
    (toInt16 (byteAt buff 1 * 256 + byteAt buff 0),
     toInt16 (byteAt buff 3 * 256 + byteAt buff 2),
     toInt16 (byteAt buff 5 * 256 + byteAt buff 4)),
    r.2.2)

/-- Read `len` bytes of a register file `dev` starting at address `reg`. -/
def readBytes (dev : Nat → Nat) (reg : Nat) : Nat → List Nat
  | 0 => []
  | n + 1 => dev reg % 256 :: readBytes dev (reg + 1) n

/-- A faithful register-emulating transport stub over register file `dev`:
reads return the stored bytes with status 0, writes return status 0. -/
def regCtx (dev : Nat → Nat) : stmdev_ctx_t where
  read_reg := fun reg _data len => (0, readBytes dev reg len)
  write_reg := fun _ _ _ => 0

/-- Apply one write of `data` at address `reg` to register file `dev`. -/
def applyWrite (dev : Nat → Nat) (reg : Nat) (data : List Nat) :
    Nat → Nat :=
  fun a => if reg ≤ a ∧ a < reg + data.length then byteAt data (a - reg)
           else dev a

/-- Apply the writes of a transaction trace to register file `dev`. -/
def applyTrace (dev : Nat → Nat) (tr : List Transaction) : Nat → Nat :=
  tr.foldl
    (fun d t =>
      match t with
      | .read _ _ => d
      | .write reg data _ => applyWrite d reg data)
    dev

/-!  Helper lemmas shared by the claim theorems. -/

/-- The trace of a bare register read contains no write transaction. -/
lemma read_trace_writeFree (ctx : Option stmdev_ctx_t) (reg : Nat)
    (data : List Nat) (len : Nat) :
    writeFree (lis3dhh_read_reg ctx reg data len).2.2 := by
  cases ctx <;> simp [lis3dhh_read_reg, writeFree, Transaction.isWrite]

/-- Decoding the code of a self-test enumerator gives it back. -/
lemma decode_st_code (v : lis3dhh_st_t) : decode_st v.code = v := by
  cases v <;> rfl

/-- Decoding the code of a FIFO-mode enumerator gives it back. -/
lemma decode_fmode_code (v : lis3dhh_fmode_t) : decode_fmode v.code = v := by
  cases v <;> rfl

/-- Decoding the code of a data-rate enumerator gives it back. -/
lemma decode_norm_mod_en_code (v : lis3dhh_norm_mod_en_t) :
    decode_norm_mod_en v.code = v := by
  cases v <;> rfl

/-- C7: `lis3dhh_read_reg` and `lis3dhh_write_reg` called with a NULL
context return the distinguished failure status -1 without invoking any
transport callback (empty transaction trace, read buffer untouched); for
every non-NULL context they invoke exactly the corresponding callback and
return its status code unchanged.  This NULL check is the only error
condition the driver itself detects: every other status is the callback's. -/
theorem claim_C7 (c : stmdev_ctx_t) (reg len : Nat) (data : List Nat) :
    lis3dhh_read_reg none reg data len = (-1, data, [])
    ∧ lis3dhh_write_reg none reg data len = (-1, [])
    ∧ lis3dhh_read_reg (some c) reg data len
        = ((c.read_reg reg data len).1, (c.read_reg reg data len).2,
           [Transaction.read reg len])
    ∧ lis3dhh_write_reg (some c) reg data len
        = (c.write_reg reg data len, [Transaction.write reg data len]) :=
  ⟨rfl, rfl, rfl, rfl⟩

/-- C1: every set accessor whose initial register read returns a non-zero
status issues no write transaction and returns that read status unchanged
(shown for all six embedded setters: data_rate, fifo_mode,
block_data_update, boot, self_test, fifo_watermark). -/
theorem claim_C1 (ctx : Option stmdev_ctx_t) (g bval wval : Nat)
    (v1 : lis3dhh_norm_mod_en_t) (v2 : lis3dhh_fmode_t) (v3 : lis3dhh_st_t)
    (h1 : (lis3dhh_read_reg ctx LIS3DHH_CTRL_REG1 [g] 1).1 ≠ 0)
    (h4 : (lis3dhh_read_reg ctx LIS3DHH_CTRL_REG4 [g] 1).1 ≠ 0)
    (hf : (lis3dhh_read_reg ctx LIS3DHH_FIFO_CTRL [g] 1).1 ≠ 0) :
    (lis3dhh_data_rate_set ctx v1 g
        = ((lis3dhh_read_reg ctx LIS3DHH_CTRL_REG1 [g] 1).1,
           (lis3dhh_read_reg ctx LIS3DHH_CTRL_REG1 [g] 1).2.2)
      ∧ writeFree (lis3dhh_data_rate_set ctx v1 g).2)
    ∧ (lis3dhh_fifo_mode_set ctx v2 g
        = ((lis3dhh_read_reg ctx LIS3DHH_FIFO_CTRL [g] 1).1,
           (lis3dhh_read_reg ctx LIS3DHH_FIFO_CTRL [g] 1).2.2)
      ∧ writeFree (lis3dhh_fifo_mode_set ctx v2 g).2)
    ∧ (lis3dhh_block_data_update_set ctx bval g
        = ((lis3dhh_read_reg ctx LIS3DHH_CTRL_REG1 [g] 1).1,
           (lis3dhh_read_reg ctx LIS3DHH_CTRL_REG1 [g] 1).2.2)
      ∧ writeFree (lis3dhh_block_data_update_set ctx bval g).2)
    ∧ (lis3dhh_boot_set ctx bval g
        = ((lis3dhh_read_reg ctx LIS3DHH_CTRL_REG1 [g] 1).1,
           (lis3dhh_read_reg ctx LIS3DHH_CTRL_REG1 [g] 1).2.2)
      ∧ writeFree (lis3dhh_boot_set ctx bval g).2)
    ∧ (lis3dhh_self_test_set ctx v3 g
        = ((lis3dhh_read_reg ctx LIS3DHH_CTRL_REG4 [g] 1).1,
           (lis3dhh_read_reg ctx LIS3DHH_CTRL_REG4 [g] 1).2.2)
      ∧ writeFree (lis3dhh_self_test_set ctx v3 g).2)
    ∧ (lis3dhh_fifo_watermark_set ctx wval g
        = ((lis3dhh_read_reg ctx LIS3DHH_FIFO_CTRL [g] 1).1,
           (lis3dhh_read_reg ctx LIS3DHH_FIFO_CTRL [g] 1).2.2)
      ∧ writeFree (lis3dhh_fifo_watermark_set ctx wval g).2) := by
  refine ⟨⟨?_, ?_⟩, ⟨?_, ?_⟩, ⟨?_, ?_⟩, ⟨?_, ?_⟩, ⟨?_, ?_⟩, ⟨?_, ?_⟩⟩
  · simp only [lis3dhh_data_rate_set]; rw [if_neg h1]
  · simp only [lis3dhh_data_rate_set]; rw [if_neg h1]
    exact read_trace_writeFree ctx LIS3DHH_CTRL_REG1 [g] 1
  · simp only [lis3dhh_fifo_mode_set]; rw [if_neg hf]
  · simp only [lis3dhh_fifo_mode_set]; rw [if_neg hf]
    exact read_trace_writeFree ctx LIS3DHH_FIFO_CTRL [g] 1
  · simp only [lis3dhh_block_data_update_set]; rw [if_neg h1]
  · simp only [lis3dhh_block_data_update_set]; rw [if_neg h1]
    exact read_trace_writeFree ctx LIS3DHH_CTRL_REG1 [g] 1
  · simp only [lis3dhh_boot_set]; rw [if_neg h1]
  · simp only [lis3dhh_boot_set]; rw [if_neg h1]
    exact read_trace_writeFree ctx LIS3DHH_CTRL_REG1 [g] 1
  · simp only [lis3dhh_self_test_set]; rw [if_neg h4]
  · simp only [lis3dhh_self_test_set]; rw [if_neg h4]
    exact read_trace_writeFree ctx LIS3DHH_CTRL_REG4 [g] 1
  · simp only [lis3dhh_fifo_watermark_set]; rw [if_neg hf]
  · simp only [lis3dhh_fifo_watermark_set]; rw [if_neg hf]
    exact read_trace_writeFree ctx LIS3DHH_FIFO_CTRL [g] 1

/-- Witness for C1 at the concrete failing transport given by a NULL
context, whose read status is -1 ≠ 0. -/
theorem claim_C1_witness :
    lis3dhh_data_rate_set none lis3dhh_norm_mod_en_t.LIS3DHH_1kHz1 0 = (-1, [])
    ∧ writeFree
        (lis3dhh_fifo_mode_set none lis3dhh_fmode_t.LIS3DHH_FIFO_MODE 0).2
    ∧ writeFree (lis3dhh_self_test_set none lis3dhh_st_t.LIS3DHH_ST_POSITIVE 0).2 := by
  have h := claim_C1 none 0 1 40 .LIS3DHH_1kHz1 .LIS3DHH_FIFO_MODE
    .LIS3DHH_ST_POSITIVE (by decide) (by decide) (by decide)
  exact ⟨h.1.1, h.2.1.2, h.2.2.2.2.1.2⟩

/-- C2: every get accessor whose field is decoded by a default-providing
switch (data_rate, self_test, fifo_mode) still stores a decoded enumerator
into the output location even when the read status is non-zero, and
returns that status unchanged: the result is exactly (read status, decode
of the buffer's field, read trace). -/
theorem claim_C2 (ctx : Option stmdev_ctx_t) (g : Nat)
    (h1 : (lis3dhh_read_reg ctx LIS3DHH_CTRL_REG1 [g] 1).1 ≠ 0)
    (h4 : (lis3dhh_read_reg ctx LIS3DHH_CTRL_REG4 [g] 1).1 ≠ 0)
    (hf : (lis3dhh_read_reg ctx LIS3DHH_FIFO_CTRL [g] 1).1 ≠ 0) :
    lis3dhh_data_rate_get ctx g
      = ((lis3dhh_read_reg ctx LIS3DHH_CTRL_REG1 [g] 1).1,
         decode_norm_mod_en (ctrl_reg1_norm_mod_en
           (byteAt (lis3dhh_read_reg ctx LIS3DHH_CTRL_REG1 [g] 1).2.1 0)),
         (lis3dhh_read_reg ctx LIS3DHH_CTRL_REG1 [g] 1).2.2)
    ∧ lis3dhh_self_test_get ctx g
      = ((lis3dhh_read_reg ctx LIS3DHH_CTRL_REG4 [g] 1).1,
         decode_st (ctrl_reg4_st
           (byteAt (lis3dhh_read_reg ctx LIS3DHH_CTRL_REG4 [g] 1).2.1 0)),
         (lis3dhh_read_reg ctx LIS3DHH_CTRL_REG4 [g] 1).2.2)
    ∧ lis3dhh_fifo_mode_get ctx g
      = ((lis3dhh_read_reg ctx LIS3DHH_FIFO_CTRL [g] 1).1,
         decode_fmode (fifo_ctrl_fmode
           (byteAt (lis3dhh_read_reg ctx LIS3DHH_FIFO_CTRL [g] 1).2.1 0)),
         (lis3dhh_read_reg ctx LIS3DHH_FIFO_CTRL [g] 1).2.2) :=
  ⟨rfl, rfl, rfl⟩

/-- Witness for C2 at the concrete failing transport given by a NULL
context (read status -1 ≠ 0): each getter still stores the normalized
default enumerator and passes -1 through. -/
theorem claim_C2_witness :
    lis3dhh_data_rate_get none 0
      = (-1, lis3dhh_norm_mod_en_t.LIS3DHH_POWER_DOWN, [])
    ∧ lis3dhh_self_test_get none 0
      = (-1, lis3dhh_st_t.LIS3DHH_ST_DISABLE, [])
    ∧ lis3dhh_fifo_mode_get none 0
      = (-1, lis3dhh_fmode_t.LIS3DHH_BYPASS_MODE, []) := by
  have h := claim_C2 none 0 (by decide) (by decide) (by decide)
  exact ⟨h.1, h.2.1, h.2.2⟩

/-- C3: decoding a bit pattern outside the documented enumerator set yields
the field's fixed default: any undefined FIFO-mode pattern decodes to
LIS3DHH_BYPASS_MODE, any undefined data-rate pattern to
LIS3DHH_POWER_DOWN, and any undefined self-test pattern to
LIS3DHH_ST_DISABLE. -/
theorem claim_C3 (n m k : Nat)
    (hn : n ≠ 0 ∧ n ≠ 1 ∧ n ≠ 3 ∧ n ≠ 4 ∧ n ≠ 6)
    (hm : m ≠ 0 ∧ m ≠ 1)
    (hk : k ≠ 0 ∧ k ≠ 1 ∧ k ≠ 2) :
    decode_fmode n = lis3dhh_fmode_t.LIS3DHH_BYPASS_MODE
    ∧ decode_norm_mod_en m = lis3dhh_norm_mod_en_t.LIS3DHH_POWER_DOWN
    ∧ decode_st k = lis3dhh_st_t.LIS3DHH_ST_DISABLE := by
  obtain ⟨n0, n1, n3, n4, n6⟩ := hn
  obtain ⟨m0, m1⟩ := hm
  obtain ⟨k0, k1, k2⟩ := hk
  refine ⟨?_, ?_, ?_⟩ <;>
    simp [decode_fmode, decode_norm_mod_en, decode_st,
      lis3dhh_fmode_t.code, lis3dhh_norm_mod_en_t.code, lis3dhh_st_t.code,
      n0, n1, n3, n4, n6, m0, m1, k0, k1, k2]

/-- Witness for C3 at the concrete undefined patterns 7 (FIFO mode),
2 (data rate) and 3 (self test). -/
theorem claim_C3_witness :
    decode_fmode 7 = lis3dhh_fmode_t.LIS3DHH_BYPASS_MODE
    ∧ decode_norm_mod_en 2 = lis3dhh_norm_mod_en_t.LIS3DHH_POWER_DOWN
    ∧ decode_st 3 = lis3dhh_st_t.LIS3DHH_ST_DISABLE :=
  claim_C3 7 2 3 (by decide) (by decide) (by decide)

/-- C4: against the faithful register-emulating transport stub `regCtx`
(reads return the stored register bytes with status 0), setting any
documented enumerator value and then getting it yields that same value,
with both calls returning status 0 — shown for the self-test, FIFO-mode
and data-rate fields, for every initial register-file content `dev` and
every enumerator. -/
theorem claim_C4 (dev : Nat → Nat) (g g2 : Nat) (v1 : lis3dhh_st_t)
    (v2 : lis3dhh_fmode_t) (v3 : lis3dhh_norm_mod_en_t) :
    ((lis3dhh_self_test_set (some (regCtx dev)) v1 g).1 = 0
      ∧ (lis3dhh_self_test_get (some (regCtx (applyTrace dev
           (lis3dhh_self_test_set (some (regCtx dev)) v1 g).2))) g2).1 = 0
      ∧ (lis3dhh_self_test_get (some (regCtx (applyTrace dev
           (lis3dhh_self_test_set (some (regCtx dev)) v1 g).2))) g2).2.1 = v1)
    ∧ ((lis3dhh_fifo_mode_set (some (regCtx dev)) v2 g).1 = 0
      ∧ (lis3dhh_fifo_mode_get (some (regCtx (applyTrace dev
           (lis3dhh_fifo_mode_set (some (regCtx dev)) v2 g).2))) g2).1 = 0
      ∧ (lis3dhh_fifo_mode_get (some (regCtx (applyTrace dev
           (lis3dhh_fifo_mode_set (some (regCtx dev)) v2 g).2))) g2).2.1 = v2)
    ∧ ((lis3dhh_data_rate_set (some (regCtx dev)) v3 g).1 = 0
      ∧ (lis3dhh_data_rate_get (some (regCtx (applyTrace dev
           (lis3dhh_data_rate_set (some (regCtx dev)) v3 g).2))) g2).1 = 0
      ∧ (lis3dhh_data_rate_get (some (regCtx (applyTrace dev
           (lis3dhh_data_rate_set (some (regCtx dev)) v3 g).2))) g2).2.1 = v3) := by
  refine ⟨⟨rfl, rfl, ?_⟩, ⟨rfl, rfl, ?_⟩, ⟨rfl, rfl, ?_⟩⟩
  · cases v1 <;>
      simp +decide [lis3dhh_self_test_set, lis3dhh_self_test_get,
        lis3dhh_read_reg, lis3dhh_write_reg, regCtx, readBytes, applyTrace,
        applyWrite, byteAt, ctrl_reg4_st, ctrl_reg4_set_st, getField,
        setField, lis3dhh_st_t.code, decode_st] <;>
      (try split_ifs) <;> first | rfl | omega
  · cases v2 <;>
      simp +decide [lis3dhh_fifo_mode_set, lis3dhh_fifo_mode_get,
        lis3dhh_read_reg, lis3dhh_write_reg, regCtx, readBytes, applyTrace,
        applyWrite, byteAt, fifo_ctrl_fmode, fifo_ctrl_set_fmode, getField,
        setField, lis3dhh_fmode_t.code, decode_fmode] <;>
      (try split_ifs) <;> first | rfl | omega
  · cases v3 <;>
      simp +decide [lis3dhh_data_rate_set, lis3dhh_data_rate_get,
        lis3dhh_read_reg, lis3dhh_write_reg, regCtx, readBytes, applyTrace,
        applyWrite, byteAt, ctrl_reg1_norm_mod_en, ctrl_reg1_set_norm_mod_en,
        getField, setField, lis3dhh_norm_mod_en_t.code, decode_norm_mod_en] <;>
      (try split_ifs) <;> first | rfl | omega

/-- C9: `lis3dhh_fifo_watermark_set` truncates its byte argument to the
5-bit fth field of FIFO_CTRL — the register ends up holding `val % 32` in
fth — and still returns the stub's success status 0; a subsequent
`lis3dhh_fifo_watermark_get` therefore returns `val % 32`, not `val`. -/
theorem claim_C9 (dev : Nat → Nat) (val g g2 : Nat) :
    (lis3dhh_fifo_watermark_set (some (regCtx dev)) val g).1 = 0
    ∧ fifo_ctrl_fth (applyTrace dev
        (lis3dhh_fifo_watermark_set (some (regCtx dev)) val g).2
        LIS3DHH_FIFO_CTRL) = val % 32
    ∧ (lis3dhh_fifo_watermark_get (some (regCtx (applyTrace dev
         (lis3dhh_fifo_watermark_set (some (regCtx dev)) val g).2))) g2).1 = 0
    ∧ (lis3dhh_fifo_watermark_get (some (regCtx (applyTrace dev
         (lis3dhh_fifo_watermark_set (some (regCtx dev)) val g).2))) g2).2.1
      = val % 32 := by
  refine ⟨rfl, ?_, rfl, ?_⟩ <;>
    simp +decide [lis3dhh_fifo_watermark_set, lis3dhh_fifo_watermark_get,
      lis3dhh_read_reg, lis3dhh_write_reg, regCtx, readBytes, applyTrace,
      applyWrite, byteAt, fifo_ctrl_fth, fifo_ctrl_set_fth, getField,
      setField, LIS3DHH_FIFO_CTRL] <;>
    omega

/-- Bounds of the wrapped 16-bit value after C truncating division by 16:
the result always fits in 12 signed bits. -/
lemma tdiv16_bounds (n : Nat) :
    -2048 ≤ (toInt16 n).tdiv 16 ∧ (toInt16 n).tdiv 16 ≤ 2047 := by
  have hb : -32768 ≤ toInt16 n ∧ toInt16 n < 32768 := by
    unfold toInt16; split <;> omega
  rcases le_or_lt 0 (toInt16 n) with hpos | hneg
  · rw [Int.tdiv_eq_ediv hpos (by norm_num)]
    omega
  · have hflip : (toInt16 n).tdiv 16 = -((-(toInt16 n)).tdiv 16) := by
      rw [← Int.neg_tdiv, neg_neg]
    rw [hflip, Int.tdiv_eq_ediv (by omega) (by norm_num)]
    omega

/-- C10: for every transport and every buffer, the raw value stored by
`lis3dhh_temperature_raw_get` lies in [-2048, 2047]: the assembled 16-bit
two's-complement value is divided by 16 with truncation toward zero, so
the result always fits in 12 signed bits. -/
theorem claim_C10 (ctx : Option stmdev_ctx_t) (g : List Nat) :
    -2048 ≤ (lis3dhh_temperature_raw_get ctx g).2.1
    ∧ (lis3dhh_temperature_raw_get ctx g).2.1 ≤ 2047 :=
  tdiv16_bounds
    (byteAt (lis3dhh_read_reg ctx LIS3DHH_OUT_TEMP_L g 2).2.1 1 * 256 +
     byteAt (lis3dhh_read_reg ctx LIS3DHH_OUT_TEMP_L g 2).2.1 0)

/-- A transport stub whose reads return the bytes 0x00, 0x19 with
status 0, as in the example of C5. -/
def tempCtxBad : stmdev_ctx_t :=
  ⟨fun _ _ _ => (0, [0x00, 0x19]), fun _ _ _ => 0⟩

/-- Counterexample to C5 as stated: a transport returning raw bytes
{0x00, 0x19} (low, high) makes `lis3dhh_temperature_raw_get` store 400
(0x1900 / 16), not 25 — the spec's example swapped the nibbles of the
assembled value. -/
theorem claim_C5_counterexample :
    (lis3dhh_temperature_raw_get (some tempCtxBad) [0, 0]).2.1 = 400
    ∧ (lis3dhh_temperature_raw_get (some tempCtxBad) [0, 0]).2.1 ≠ 25 := by
  decide

/-- C5 (amended): `lis3dhh_temperature_raw_get` assembles the two bytes
read from OUT_TEMP_L little-endian into a two's-complement 16-bit value
and divides it by 16 (C truncating division, equal to an arithmetic right
shift by 4 for these non-negative values); for every transport whose read
returns raw bytes {0x90, 0x01} (low, high) the stored raw value is
0x0190 / 16 = 25, the read status is passed through unchanged, and
`lis3dhh_from_lsb_to_celsius` converts 25 to 25/16 + 25 = 26.5625 °C. -/
theorem claim_C5 (c : stmdev_ctx_t) (g : List Nat)
    (h : (c.read_reg LIS3DHH_OUT_TEMP_L g 2).2 = [0x90, 0x01]) :
    (lis3dhh_temperature_raw_get (some c) g).2.1 = 25
    ∧ (lis3dhh_temperature_raw_get (some c) g).1
        = (c.read_reg LIS3DHH_OUT_TEMP_L g 2).1
    ∧ lis3dhh_from_lsb_to_celsius 25 = 26.5625 := by
  refine ⟨?_, rfl, by norm_num [lis3dhh_from_lsb_to_celsius]⟩
  simp [lis3dhh_temperature_raw_get, lis3dhh_read_reg, h, byteAt, toInt16]
  decide

/-- A transport stub whose reads return the bytes 0x90, 0x01 with
status 0: the corrected concrete input of C5. -/
def tempCtxGood : stmdev_ctx_t :=
  ⟨fun _ _ _ => (0, [0x90, 0x01]), fun _ _ _ => 0⟩

/-- Witness for C5 at the concrete transport returning {0x90, 0x01}. -/
theorem claim_C5_witness :
    (lis3dhh_temperature_raw_get (some tempCtxGood) [0, 0]).2.1 = 25
    ∧ lis3dhh_from_lsb_to_celsius 25 = 26.5625 := by
  have h := claim_C5 tempCtxGood [0, 0] rfl
  exact ⟨h.1, h.2.2⟩

/-- C6: `lis3dhh_acceleration_raw_get` decodes the six bytes read from
OUT_X_L_XL as three little-endian two's-complement 16-bit words, no
shift, in fixed X, Y, Z order: bytes {0x00,0x01, 0x00,0x02, 0x00,0x03}
decode to X=256, Y=512, Z=768, the read status is passed through
unchanged, and `lis3dhh_from_lsb_to_mg` (0.076 mg/LSB) converts these to
19.456, 38.912 and 58.368 milli-g. -/
theorem claim_C6 (c : stmdev_ctx_t) (g : List Nat)
    (h : (c.read_reg LIS3DHH_OUT_X_L_XL g 6).2
          = [0x00, 0x01, 0x00, 0x02, 0x00, 0x03]) :
    (lis3dhh_acceleration_raw_get (some c) g).2.1 = (256, 512, 768)
    ∧ (lis3dhh_acceleration_raw_get (some c) g).1
        = (c.read_reg LIS3DHH_OUT_X_L_XL g 6).1
    ∧ lis3dhh_from_lsb_to_mg 256 = 19.456
    ∧ lis3dhh_from_lsb_to_mg 512 = 38.912
    ∧ lis3dhh_from_lsb_to_mg 768 = 58.368 := by
  refine ⟨?_, rfl, ?_, ?_, ?_⟩
  · simp [lis3dhh_acceleration_raw_get, lis3dhh_read_reg, h, byteAt, toInt16]
  all_goals norm_num [lis3dhh_from_lsb_to_mg]

/-- A transport stub whose reads return the six acceleration bytes of the
C6 example with status 0. -/
def accCtx6 : stmdev_ctx_t :=
  ⟨fun _ _ _ => (0, [0x00, 0x01, 0x00, 0x02, 0x00, 0x03]), fun _ _ _ => 0⟩

/-- Witness for C6 at the concrete transport returning the example bytes. -/
theorem claim_C6_witness :
    (lis3dhh_acceleration_raw_get (some accCtx6) [0, 0, 0, 0, 0, 0]).2.1
      = (256, 512, 768)
    ∧ lis3dhh_from_lsb_to_mg 256 = 19.456 := by
  have h := claim_C6 accCtx6 [0, 0, 0, 0, 0, 0] rfl
  exact ⟨h.1, h.2.2.1⟩

/-- C8: the read-modify-write of a set accessor changes exactly the one
targeted bitfield of the owning register.  For every transport whose
CTRL_REG1 read returns byte `b` with status 0, `lis3dhh_boot_set` writes
back exactly `ctrl_reg1_set_boot b val`, whose boot bit is `val % 2` and
whose bdu, drdy_pulse, sw_reset, reserved, if_add_inc and norm_mod_en
bits all equal those of `b`; likewise `lis3dhh_block_data_update_set`
modifies only the bdu bit. -/
theorem claim_C8 (c : stmdev_ctx_t) (g b bval boval : Nat) (hb : b < 256)
    (h : c.read_reg LIS3DHH_CTRL_REG1 [g] 1 = (0, [b])) :
    ((lis3dhh_boot_set (some c) boval g).2
        = [Transaction.read LIS3DHH_CTRL_REG1 1,
           Transaction.write LIS3DHH_CTRL_REG1 [ctrl_reg1_set_boot b boval] 1]
      ∧ ctrl_reg1_boot (ctrl_reg1_set_boot b boval) = boval % 2
      ∧ ctrl_reg1_bdu (ctrl_reg1_set_boot b boval) = ctrl_reg1_bdu b
      ∧ ctrl_reg1_drdy_pulse (ctrl_reg1_set_boot b boval)
          = ctrl_reg1_drdy_pulse b
      ∧ ctrl_reg1_sw_reset (ctrl_reg1_set_boot b boval) = ctrl_reg1_sw_reset b
      ∧ ctrl_reg1_not_used_01 (ctrl_reg1_set_boot b boval)
          = ctrl_reg1_not_used_01 b
      ∧ ctrl_reg1_if_add_inc (ctrl_reg1_set_boot b boval)
          = ctrl_reg1_if_add_inc b
      ∧ ctrl_reg1_norm_mod_en (ctrl_reg1_set_boot b boval)
          = ctrl_reg1_norm_mod_en b)
    ∧ ((lis3dhh_block_data_update_set (some c) bval g).2
        = [Transaction.read LIS3DHH_CTRL_REG1 1,
           Transaction.write LIS3DHH_CTRL_REG1 [ctrl_reg1_set_bdu b bval] 1]
      ∧ ctrl_reg1_bdu (ctrl_reg1_set_bdu b bval) = bval % 2
      ∧ ctrl_reg1_boot (ctrl_reg1_set_bdu b bval) = ctrl_reg1_boot b
      ∧ ctrl_reg1_drdy_pulse (ctrl_reg1_set_bdu b bval)
          = ctrl_reg1_drdy_pulse b
      ∧ ctrl_reg1_sw_reset (ctrl_reg1_set_bdu b bval) = ctrl_reg1_sw_reset b
      ∧ ctrl_reg1_not_used_01 (ctrl_reg1_set_bdu b bval)
          = ctrl_reg1_not_used_01 b
      ∧ ctrl_reg1_if_add_inc (ctrl_reg1_set_bdu b bval)
          = ctrl_reg1_if_add_inc b
      ∧ ctrl_reg1_norm_mod_en (ctrl_reg1_set_bdu b bval)
          = ctrl_reg1_norm_mod_en b) := by
  refine ⟨⟨?_, ?_, ?_, ?_, ?_, ?_, ?_, ?_⟩, ⟨?_, ?_, ?_, ?_, ?_, ?_, ?_, ?_⟩⟩ <;>
    first
      | simp [lis3dhh_boot_set, lis3dhh_block_data_update_set,
          lis3dhh_read_reg, lis3dhh_write_reg, h, byteAt,
          Nat.mod_eq_of_lt hb]
      | (simp [ctrl_reg1_boot, ctrl_reg1_set_boot, ctrl_reg1_bdu,
          ctrl_reg1_set_bdu, ctrl_reg1_drdy_pulse, ctrl_reg1_sw_reset,
          ctrl_reg1_not_used_01, ctrl_reg1_if_add_inc, ctrl_reg1_norm_mod_en,
          getField, setField]
         omega)

/-- A transport stub whose CTRL_REG1 read returns the byte 0xA5 with
status 0, used as the concrete frame-effect input. -/
def frameCtx : stmdev_ctx_t :=
  ⟨fun _ _ _ => (0, [0xA5]), fun _ _ _ => 0⟩

/-- Witness for C8 at the concrete read byte 0xA5 and boot value 1. -/
theorem claim_C8_witness :
    (lis3dhh_boot_set (some frameCtx) 1 0).2
      = [Transaction.read LIS3DHH_CTRL_REG1 1,
         Transaction.write LIS3DHH_CTRL_REG1 [ctrl_reg1_set_boot 0xA5 1] 1]
    ∧ ctrl_reg1_norm_mod_en (ctrl_reg1_set_boot 0xA5 1)
        = ctrl_reg1_norm_mod_en 0xA5 := by
  have h := claim_C8 frameCtx 0 0xA5 0 1 (by decide) rfl
  exact ⟨h.1.1, h.1.2.2.2.2.2.2.2⟩
